import Mathlib

/-!
Shallow embedding of the advanced-selenium-template repository core:
proxy rotation (`src/services/proxy.js`), fingerprint fetching
(`FingerprintManager`), the session registry (`SessionManager`), session
launch-option composition (`Session.configureOptions` / `initialize`, in
both source variants), and the resilient interaction layer
(`SessionActions.navigate` / `SessionActions.click`).

File/database I/O and the browser driver are external collaborators: their
outcomes enter the model as explicit parameters (an `Except` result for a
driver call, a list for the persisted pool contents).  Pools are modelled
as the lists the source loads from its stores; timestamps are integers.
-/

namespace ProxyManager

/--
`ProxyManager.readAndRotateProxy` (src/src/services/proxy.js, lines 12-35),
pure core after the pool has been loaded.  The source reads the proxy list,
returns `null` (here `none`) without writing when it is empty, otherwise
`shift`s the head, `push`es it to the tail, persists, and returns the head.
Result: (returned proxy, pool contents persisted after the call).
-/
def readAndRotateProxy : List String → Option String × List String
  | [] => (none, [])
  | p :: rest => (some p, rest ++ [p])

/-- Iterates `readAndRotateProxy` `n` times, collecting the returned
proxies in call order together with the final pool. -/
def rotateTimes : Nat → List String → List (Option String) × List String
  | 0, pool => ([], pool)
  | n + 1, pool =>
      let step := readAndRotateProxy pool
      let rest := rotateTimes n step.2
      (step.1 :: rest.1, rest.2)

/-- One event of a rotation call, as seen by the shared proxy store:
loading the persisted pool, persisting the new pool, returning a result. -/
inductive RotEvent where
  | load (pool : List String)
  | persist (pool : List String)
  | ret (res : Option String)
  deriving DecidableEq, Repr

/--
One `readAndRotateProxy` call as an event trace: the call loads the pool,
persists the rotated pool (no persist happens when the pool is empty), and
returns.  Under `PQueue({ concurrency: 1 })` (src/src/services/proxy.js,
lines 6-10) the whole trace of one queued call runs before the next queued
call starts.  Result: (trace, returned proxy, pool persisted after call).
-/
def rotateCall (pool : List String) : List RotEvent × Option String × List String :=
  match pool with
  | [] => ([RotEvent.load [], RotEvent.ret none], none, [])
  | p :: rest =>
      ([RotEvent.load (p :: rest), RotEvent.persist (rest ++ [p]), RotEvent.ret (some p)],
       some p, rest ++ [p])

/--
Two `readAndRotateProxy` calls queued on the same manager.  The
concurrency-1 FIFO queue of the source serializes them: the second call's
load runs against the pool persisted by the first call, and the combined
event trace is the first call's trace followed by the second call's trace.
Result: (combined trace, (first result, second result), final pool).
-/
def twoSerializedRotateCalls (pool : List String) :
    List RotEvent × (Option String × Option String) × List String :=
  let c1 := rotateCall pool
  let c2 := rotateCall c1.2.2
  (c1.1 ++ c2.1, (c1.2.1, c2.2.1), c2.2.2)

end ProxyManager

namespace FingerprintManager

/-- One row of the `fingerprint` table: fields `(value, usedAt)`.  The
`value` blob is opaque (kept as a string); `usedAt` is a millisecond
timestamp (`Date.now()`), modelled as an integer. -/
structure FpRecord where
  value : String
  usedAt : Int
  deriving DecidableEq, Repr

/--
`SELECT value FROM fingerprint ORDER BY usedAt ASC LIMIT 1`: the first row
(in table order) attaining the minimal `usedAt`.  Table order breaks ties,
matching the deterministic row scan of the store.
-/
def selectOldestRecord : List FpRecord → Option FpRecord
  | [] => none
  | r :: rest =>
      match selectOldestRecord rest with
      | none => some r
      | some m => if r.usedAt ≤ m.usedAt then some r else some m

/--
`FingerprintManager.fetchAndUpdateFingerprint` (src/src/services/proxy.js,
lines 86-107), pure core over the loaded table at current time `now`.  The
source selects the row with minimal `usedAt`, returns `null` if there is
none, otherwise runs `UPDATE fingerprint SET usedAt = Date.now() WHERE
value = ?` (updating every row carrying that value) and returns the
(parsed) value.  Result: (returned value, table after the call).
-/
def fetchAndUpdateFingerprint (now : Int) (pool : List FpRecord) :
    Option String × List FpRecord :=
  match selectOldestRecord pool with
  | none => (none, pool)
  | some r =>
      (some r.value,
       pool.map fun q => if q.value = r.value then { value := q.value, usedAt := now } else q)

end FingerprintManager

namespace SessionManager

/-- The error cases raised by `SessionManager` (src/unnamed/part_008).  The
source throws `Error` objects with distinguishing messages; they are
modelled as tagged constructors. -/
inductive SMError where
  | sessionAlreadyExists (id : String)
  | sessionNotFound (id : String)
  | createFailed (id : String) (msg : String)
  | closeFailed (id : String) (msg : String)
  deriving DecidableEq, Repr

/-- The `{ session, actions }` pair stored per identifier.  Both are
opaque object references here. -/
structure RegistryEntry where
  sessionRef : Nat
  actionsRef : Nat
  deriving DecidableEq, Repr

/-- `this.sessions`, a `Map` keyed by session id, as an association list
in insertion order (a JS `Map` preserves insertion order and holds at most
one entry per key). -/
abbrev Registry := List (String × RegistryEntry)

/-- `this.sessions.has(id)`. -/
def hasId (reg : Registry) (id : String) : Bool :=
  reg.any fun p => p.1 == id

/-- Number of registry entries stored under `id`. -/
def countId (reg : Registry) (id : String) : Nat :=
  (reg.filter fun p => p.1 == id).length

/--
`SessionManager.createSession` (src/unnamed/part_008, lines 43-64).  The
source first checks `sessions.has(sessionId)` and throws before any other
effect; otherwise it constructs a `Session`, awaits `session.initialize()`
(outcome supplied here as `initResult`, since it depends on the driver
collaborator), and only on success executes `sessions.set(sessionId,
{ session, actions })`; an initialization failure is re-thrown wrapped and
nothing is registered.  Result: (call outcome, registry after the call).
-/
def createSession (reg : Registry) (id : String)
    (initResult : Except String RegistryEntry) :
    Except SMError RegistryEntry × Registry :=
  if hasId reg id then
    (Except.error (SMError.sessionAlreadyExists id), reg)
  else
    match initResult with
    | Except.error msg => (Except.error (SMError.createFailed id msg), reg)
    | Except.ok entry => (Except.ok entry, reg ++ [(id, entry)])

/--
`SessionManager.closeSession` (src/unnamed/part_008, lines 73-87).  The
source looks the id up and throws `not found` when absent; otherwise it
awaits `session.quit()` (outcome supplied as `quitResult`) and only after
`quit` resolves does it run `sessions.delete(sessionId)`; when `quit`
rejects, the catch block re-throws and the delete never executes.
Result: (call outcome, registry after the call).
-/
def closeSession (reg : Registry) (id : String) (quitResult : Except String Unit) :
    Except SMError Unit × Registry :=
  match reg.find? (fun p => p.1 == id) with
  | none => (Except.error (SMError.sessionNotFound id), reg)
  | some _ =>
      match quitResult with
      | Except.ok _ => (Except.ok (), reg.filter fun p => !(p.1 == id))
      | Except.error msg => (Except.error (SMError.closeFailed id msg), reg)

/-- `SessionManager.getSession` (src/unnamed/part_008, lines 96-102). -/
def getSession (reg : Registry) (id : String) : Except SMError RegistryEntry :=
  match reg.find? (fun p => p.1 == id) with
  | none => Except.error (SMError.sessionNotFound id)
  | some p => Except.ok p.2

end SessionManager

namespace Session

/-- Failure cases of session initialization.  `typeError` models a
JavaScript `TypeError` raised by a property access on `null`/`undefined`;
`resourceUnavailable` is the error the specification names for an empty
resource pool (the source never constructs it); the remaining cases model
rejections of the external plugin/driver calls. -/
inductive SessError where
  | typeError (msg : String)
  | resourceUnavailable
  | pluginFetchFailed (msg : String)
  | launchFailed (msg : String)
  deriving DecidableEq, Repr

/-- One observable step of launch-option composition: an
`options.addArguments(...)` call, the `options.setLoggingPrefs(...)` call
of the part_003 variant, a `plugin.useProxy(...)` call with its
`changeTimezone`/`changeGeolocation` flags, or a
`plugin.useFingerprint(...)` call. -/
inductive OptStep where
  | addArg (arg : String)
  | setLoggingPrefs
  | usePluginProxy (proxy : String) (changeTimezone changeGeolocation : Bool)
  | useFingerprint (fp : String)
  deriving DecidableEq, Repr

/-- The session config object: `headless`, `proxy`, `fingerprint`.
`none` models an absent (`undefined`) field. -/
structure SessionConfig where
  headless : Bool
  proxy : Option String
  fingerprint : Option String
  deriving DecidableEq, Repr

/-- JavaScript truthiness of an optional string field: `undefined`,
`null` and the empty string are falsy. -/
def truthy : Option String → Bool
  | none => false
  | some s => !(s == "")

/-- `s.match(/^(.*?):(.*)@/)` succeeds iff some colon occurs strictly
before some at-sign (proxy strings are single-line, so the
newline-excluding `.` of the regex is unrestricted here). -/
def colonThenAt : List Char → Bool
  | [] => false
  | c :: rest => (c == ':' && rest.contains '@') || colonThenAt rest

/-- Whether a proxy string has the authenticated `user:pass@host:port`
shape tested by `config.proxy.match(/^(.*?):(.*)@/)`. -/
def matchesAuthProxy (s : String) : Bool :=
  colonThenAt s.toList

/--
Proxy branch of `Session.configureOptions` in src/unnamed/part_004 (lines
69-85).  Guard: `config.proxy && config.proxy !== 'default'`.  Inside,
`config.proxy == 'database'` replaces the field by the result of
`proxyManager.readAndRotateProxy()` over the persisted pool `pool`; the
subsequent `.match` call on a `null` result throws a `TypeError`.  An
authenticated-shaped proxy goes through `plugin.useProxy` with timezone
and geolocation changes, any other through `--proxy-server`.
-/
def resolveProxySteps (proxy : Option String) (pool : List String) :
    Except SessError (List OptStep) :=
  if truthy proxy && !(proxy == some "default") then
    match (if proxy == some "database"
           then (ProxyManager.readAndRotateProxy pool).1 else proxy) with
    | none => Except.error (SessError.typeError "null has no method match")
    | some p =>
        if matchesAuthProxy p then
          Except.ok [OptStep.usePluginProxy p true true]
        else
          Except.ok [OptStep.addArg ("--proxy-server=" ++ p)]
  else
    Except.ok []

/--
Fingerprint branch of `Session.configureOptions`, identical in
src/unnamed/part_004 (lines 87-103) and src/unnamed/part_003 (lines
83-99).  Guard: `config.fingerprint && config.fingerprint !== 'default'`.
`'fetch'` uses the plugin fetch (outcome supplied as `pluginFetch`);
`'database'` stringifies `fetchAndUpdateFingerprint()` over the loaded
table — `JSON.stringify(null)` is the string `"null"`, and stringifying a
parsed stored value round-trips to the stored value, kept opaque here —
and any other truthy value is used verbatim.
-/
def resolveFingerprintSteps (fp : Option String)
    (fpPool : List FingerprintManager.FpRecord) (now : Int)
    (pluginFetch : Except String String) :
    Except SessError (List OptStep) :=
  if truthy fp && !(fp == some "default") then
    if fp == some "fetch" then
      match pluginFetch with
      | Except.error m => Except.error (SessError.pluginFetchFailed m)
      | Except.ok v => Except.ok [OptStep.useFingerprint v]
    else if fp == some "database" then
      match (FingerprintManager.fetchAndUpdateFingerprint now fpPool).1 with
      | none => Except.ok [OptStep.useFingerprint "null"]
      | some v => Except.ok [OptStep.useFingerprint v]
    else
      Except.ok [OptStep.useFingerprint (fp.getD "")]
  else
    Except.ok []

/--
`Session.configureOptions` of src/unnamed/part_004 (lines 58-106), as the
sequence of composition steps it performs on success.  Source order:
`--user-data-dir` first, then `--headless` when configured, then the
proxy branch, then the fingerprint branch; this variant never touches
logging preferences.
-/
def configureOptions (profilePath : String) (cfg : SessionConfig)
    (pool : List String) (fpPool : List FingerprintManager.FpRecord) (now : Int)
    (pluginFetch : Except String String) :
    Except SessError (List OptStep) :=
  match resolveProxySteps cfg.proxy pool with
  | Except.error e => Except.error e
  | Except.ok proxySteps =>
      match resolveFingerprintSteps cfg.fingerprint fpPool now pluginFetch with
      | Except.error e => Except.error e
      | Except.ok fpSteps =>
          Except.ok
            (OptStep.addArg ("--user-data-dir=" ++ profilePath)
              :: ((if cfg.headless then [OptStep.addArg "--headless"] else [])
                  ++ proxySteps ++ fpSteps))

/-- The mutable state of a `Session` object that initialization touches:
`this.driver`, `null` until the launch call resolves. -/
structure SessionState where
  driver : Option Nat
  deriving DecidableEq, Repr

/--
`Session.initialize` of src/unnamed/part_004 (lines 34-49): resolve the
profile path, compose the options, then `this.driver = await
plugin.launch({ options })`.  The launch outcome is supplied as a function
of the composed steps; the `driver` field is assigned only after a
successful launch, so every failure leaves the state unchanged.
Result: (call outcome, session state after the call).
-/
def initSession (st : SessionState) (profilePath : String) (cfg : SessionConfig)
    (pool : List String) (fpPool : List FingerprintManager.FpRecord) (now : Int)
    (pluginFetch : Except String String)
    (launch : List OptStep → Except String Nat) :
    Except SessError Unit × SessionState :=
  match configureOptions profilePath cfg pool fpPool now pluginFetch with
  | Except.error e => (Except.error e, st)
  | Except.ok steps =>
      match launch steps with
      | Except.error msg => (Except.error (SessError.launchFailed msg), st)
      | Except.ok d => (Except.ok (), { st with driver := some d })

/--
Proxy branch of the `Session.configureOptions` variant in
src/unnamed/part_003 (lines 66-78).  This variant guards only with
`config.proxy !== 'default'` (no truthiness check and no `'database'`
rotation branch), so an absent proxy field reaches
`config.proxy.match(...)` and throws a `TypeError`.
-/
def resolveProxyStepsVariant (proxy : Option String) :
    Except SessError (List OptStep) :=
  if !(proxy == some "default") then
    match proxy with
    | none => Except.error (SessError.typeError "undefined has no method match")
    | some p =>
        if matchesAuthProxy p then
          Except.ok [OptStep.usePluginProxy p true true]
        else
          Except.ok [OptStep.addArg ("--proxy-server=" ++ p)]
  else
    Except.ok []

/--
The `Session.configureOptions` variant of src/unnamed/part_003 (lines
55-102).  Source order: `--headless` when configured, then
`setLoggingPrefs` (browser/driver/performance/server all OFF), then the
proxy branch, then `--user-data-dir`, then the fingerprint branch.
-/
def configureOptionsVariant (profilePath : String) (cfg : SessionConfig)
    (fpPool : List FingerprintManager.FpRecord) (now : Int)
    (pluginFetch : Except String String) :
    Except SessError (List OptStep) :=
  match resolveProxyStepsVariant cfg.proxy with
  | Except.error e => Except.error e
  | Except.ok proxySteps =>
      match resolveFingerprintSteps cfg.fingerprint fpPool now pluginFetch with
      | Except.error e => Except.error e
      | Except.ok fpSteps =>
          Except.ok
            ((if cfg.headless then [OptStep.addArg "--headless"] else [])
              ++ [OptStep.setLoggingPrefs]
              ++ proxySteps
              ++ [OptStep.addArg ("--user-data-dir=" ++ profilePath)]
              ++ fpSteps)

/--
Option composition in the order the specification claims (written from the
spec's words, for comparison with the source-derived definitions):
logging suppression set first, then the headless flag if requested, then
the resolved proxy, then the resolved fingerprint, then the profile
directory as the persistent user-data path, before the single launch
call.
-/
def specOrderConfigureOptions (profilePath : String) (cfg : SessionConfig)
    (pool : List String) (fpPool : List FingerprintManager.FpRecord) (now : Int)
    (pluginFetch : Except String String) :
    Except SessError (List OptStep) :=
  match resolveProxySteps cfg.proxy pool with
  | Except.error e => Except.error e
  | Except.ok proxySteps =>
      match resolveFingerprintSteps cfg.fingerprint fpPool now pluginFetch with
      | Except.error e => Except.error e
      | Except.ok fpSteps =>
          Except.ok
            (OptStep.setLoggingPrefs
              :: ((if cfg.headless then [OptStep.addArg "--headless"] else [])
                  ++ proxySteps ++ fpSteps
                  ++ [OptStep.addArg ("--user-data-dir=" ++ profilePath)]))

end Session

namespace SessionActions

/-- One observable step of `SessionActions.navigate`: starting
`driver.get(url)`, executing the stop-loading script, or the randomized
settle delay. -/
inductive NavEvent where
  | driverGet (url : String)
  | windowStop
  | settleDelay
  deriving DecidableEq, Repr

/--
`SessionActions.navigate` (src/unnamed/part_002, lines 44-60).  The source
races `driver.get(url)` against a timer that rejects with `Page load timed
out.`; the race outcome (which depends on real time and the driver) is
supplied as `raceOutcome`.  On a win it settles and returns; on ANY
rejection the catch block runs `executeScript("window.stop();")`, settles,
and returns normally.  Result: (event trace, call outcome).
-/
def navigate (url : String) (raceOutcome : Except String Unit) :
    List NavEvent × Except String Unit :=
  match raceOutcome with
  | Except.ok _ =>
      ([NavEvent.driverGet url, NavEvent.settleDelay], Except.ok ())
  | Except.error _ =>
      ([NavEvent.driverGet url, NavEvent.windowStop, NavEvent.settleDelay], Except.ok ())

/-- One observable step of `SessionActions.click`: the single
`getElement` location, a short pre/post delay, the k-th
`element.click()` attempt, or the longer retry delay after a failure. -/
inductive ClickEvent where
  | locate (selector : String)
  | shortDelay
  | attemptClick (attempt : Nat)
  | retryDelay
  deriving DecidableEq, Repr

/-- Whether an event is the element location. -/
def ClickEvent.isLocate : ClickEvent → Bool
  | ClickEvent.locate _ => true
  | _ => false

/-- Whether an event is a native click attempt. -/
def ClickEvent.isAttempt : ClickEvent → Bool
  | ClickEvent.attemptClick _ => true
  | _ => false

/--
The `while (attempts < 5)` loop of `SessionActions.click`
(src/unnamed/part_002, lines 115-127), on the already-located element.
`succeeds k` is the outcome of the k-th `element.click()` call; the loop
delays, attempts, and on success delays again and returns, else delays
longer and retries with the counter incremented.  `fuel` is the remaining
attempt budget.  Result: (event trace, whether some attempt succeeded).
-/
def clickAttempts (succeeds : Nat → Bool) : Nat → Nat → List ClickEvent × Bool
  | _, 0 => ([], false)
  | k, fuel + 1 =>
      if succeeds k then
        ([ClickEvent.shortDelay, ClickEvent.attemptClick k, ClickEvent.shortDelay], true)
      else
        (ClickEvent.shortDelay :: ClickEvent.attemptClick k :: ClickEvent.retryDelay ::
            (clickAttempts succeeds (k + 1) fuel).1,
         (clickAttempts succeeds (k + 1) fuel).2)

/--
`SessionActions.click` (src/unnamed/part_002, lines 110-129): one
`getElement` call, then the bounded attempt loop with budget 5; when the
loop exhausts the budget the source throws
`Failed to click element (selector).`.  Result: (event trace, outcome).
-/
def click (selector : String) (succeeds : Nat → Bool) :
    List ClickEvent × Except String Unit :=
  let run := clickAttempts succeeds 0 5
  (ClickEvent.locate selector :: run.1,
   if run.2 then Except.ok () else Except.error ("Failed to click element " ++ selector ++ "."))

end SessionActions

open ProxyManager FingerprintManager SessionManager Session SessionActions

/-- Rotating as many times as a prefix is long hands out exactly that
prefix and moves it behind the rest of the pool. -/
theorem rotateTimes_append (l1 l2 : List String) :
    rotateTimes l1.length (l1 ++ l2) = (l1.map some, l2 ++ l1) := by
  induction l1 generalizing l2 with
  | nil => simp [rotateTimes]
  | cons a t ih =>
      have h := ih (l2 ++ [a])
      simp only [List.cons_append, List.length_cons, rotateTimes, readAndRotateProxy]
      rw [List.append_assoc, h]
      simp

/-- C1: for every non-empty proxy pool, one `readAndRotateProxy` call
returns the current head and leaves the pool equal to the original tail
with that head appended; the resulting pool is a permutation of the
original; and rotating N times, N the pool size, returns each original
element exactly once in original order and restores the starting order. -/
theorem C1_proxy_rotation (a : String) (t : List String) :
    (readAndRotateProxy (a :: t)).1 = some a
    ∧ (readAndRotateProxy (a :: t)).2 = t ++ [a]
    ∧ (readAndRotateProxy (a :: t)).2.Perm (a :: t)
    ∧ rotateTimes (a :: t).length (a :: t) = ((a :: t).map some, a :: t) := by
  refine ⟨rfl, rfl, ?_, ?_⟩
  · show (t ++ [a]).Perm (a :: t)
    exact @List.perm_append_comm _ t [a]
  · simpa using rotateTimes_append (a :: t) []

/-- C2 counterexample: on the pool `["a", "a"]` (size 2, not 1) the two
serialized `readAndRotateProxy` calls both return the element `"a"`, so
the claim that two calls never return the same element unless the pool has
exactly one element fails as stated. -/
theorem C2_counterexample :
    (["a", "a"] : List String).length ≠ 1
    ∧ (twoSerializedRotateCalls ["a", "a"]).2.1.1 = some "a"
    ∧ (twoSerializedRotateCalls ["a", "a"]).2.1.2 = some "a" := by
  exact ⟨by decide, rfl, rfl⟩

/-- C2 (amended): the concurrency-1 FIFO queue serializes the two calls —
the first call's trace is load, persist, return, and the combined trace is
that trace followed by the trace of a call loading exactly the pool the
first call persisted — and for a duplicate-free pool the two calls return
the same element if and only if the pool has exactly one element. -/
theorem C2_serialized_rotations (a : String) (t : List String)
    (hnd : (a :: t).Nodup) :
    (rotateCall (a :: t)).1
      = [RotEvent.load (a :: t), RotEvent.persist (t ++ [a]), RotEvent.ret (some a)]
    ∧ (twoSerializedRotateCalls (a :: t)).1
      = (rotateCall (a :: t)).1 ++ (rotateCall (t ++ [a])).1
    ∧ ((twoSerializedRotateCalls (a :: t)).2.1.1 = (twoSerializedRotateCalls (a :: t)).2.1.2
        ↔ (a :: t).length = 1) := by
  refine ⟨rfl, rfl, ?_⟩
  cases t with
  | nil => simp [twoSerializedRotateCalls, rotateCall]
  | cons b t2 =>
      have hne : a ≠ b := by
        rintro rfl
        exact (List.nodup_cons.mp hnd).1 (List.mem_cons_self _ _)
      have h1 : (twoSerializedRotateCalls (a :: b :: t2)).2.1.1 = some a := rfl
      have h2 : (twoSerializedRotateCalls (a :: b :: t2)).2.1.2 = some b := rfl
      rw [h1, h2]
      simp only [List.length_cons, Option.some.injEq]
      constructor
      · intro h; exact absurd h hne
      · intro h; omega

/-- C2 witness: on the duplicate-free pool `["a", "b"]` the amended
theorem applies and its conclusion holds. -/
theorem C2_serialized_rotations_witness :
    ((["a", "b"] : List String).Nodup)
    ∧ ((twoSerializedRotateCalls ["a", "b"]).2.1.1 = (twoSerializedRotateCalls ["a", "b"]).2.1.2
        ↔ (["a", "b"] : List String).length = 1) := by
  refine ⟨by decide, ?_⟩
  exact (C2_serialized_rotations "a" ["b"] (by decide)).2.2

/-- The oldest-record selection returns `none` exactly on the empty
table. -/
theorem selectOldestRecord_eq_none (pool : List FpRecord) :
    selectOldestRecord pool = none ↔ pool = [] := by
  cases pool with
  | nil => simp [selectOldestRecord]
  | cons x rest =>
      simp only [selectOldestRecord]
      constructor
      · intro h
        exfalso
        cases hrest : selectOldestRecord rest with
        | none => rw [hrest] at h; exact Option.noConfusion h
        | some m =>
            rw [hrest] at h
            by_cases hle : x.usedAt ≤ m.usedAt <;> simp [hle] at h
      · intro h
        exact absurd h (List.cons_ne_nil x rest)

/-- A selected oldest record belongs to the table and minimizes
`usedAt` over it. -/
theorem selectOldestRecord_mem_min (pool : List FpRecord) (r : FpRecord)
    (h : selectOldestRecord pool = some r) :
    r ∈ pool ∧ ∀ q ∈ pool, r.usedAt ≤ q.usedAt := by
  induction pool generalizing r with
  | nil => simp [selectOldestRecord] at h
  | cons x rest ih =>
      simp only [selectOldestRecord] at h
      cases hrest : selectOldestRecord rest with
      | none =>
          rw [hrest] at h
          have hnil : rest = [] := (selectOldestRecord_eq_none rest).mp hrest
          subst hnil
          have hx : x = r := by simpa using h
          subst hx
          exact ⟨List.mem_cons_self _ _, by simp⟩
      | some m =>
          rw [hrest] at h
          obtain ⟨hm, hmin⟩ := ih m hrest
          by_cases hle : x.usedAt ≤ m.usedAt
          · have hx : x = r := by simpa [hle] using h
            subst hx
            refine ⟨List.mem_cons_self _ _, ?_⟩
            intro q hq
            rcases List.mem_cons.mp hq with hq1 | hq2
            · exact hq1 ▸ le_refl _
            · exact le_trans hle (hmin q hq2)
          · have hx : m = r := by simpa [hle] using h
            subst hx
            refine ⟨List.mem_cons_of_mem x hm, ?_⟩
            intro q hq
            rcases List.mem_cons.mp hq with hq1 | hq2
            · exact hq1 ▸ le_of_lt (lt_of_not_le hle)
            · exact hmin q hq2

/-- A table of at least two records with pairwise distinct values holds
a record whose value differs from any given one. -/
theorem exists_other_value (pool : List FpRecord) (r : FpRecord)
    (hlen : 2 ≤ pool.length) (hnd : (pool.map FpRecord.value).Nodup) :
    ∃ q ∈ pool, q.value ≠ r.value := by
  cases pool with
  | nil => simp at hlen
  | cons x rest =>
      cases rest with
      | nil => simp at hlen
      | cons y rest2 =>
          simp only [List.map_cons, List.nodup_cons] at hnd
          have hxy : x.value ≠ y.value := by
            intro he
            exact hnd.1 (by simp [he])
          by_cases hx : x.value = r.value
          · exact ⟨y, by simp, fun he => hxy (by rw [hx, he])⟩
          · exact ⟨x, by simp, hx⟩

/-- The first component of a fetch is the value of the selected oldest
record. -/
theorem fetchAndUpdateFingerprint_fst (now : Int) (pool : List FpRecord) (r : FpRecord)
    (h : selectOldestRecord pool = some r) :
    (fetchAndUpdateFingerprint now pool).1 = some r.value := by
  simp [fetchAndUpdateFingerprint, h]

/-- C3 counterexample: on the table `[("A", 0), ("B", 100)]` (size 2) at
fetch time 50, `fetchAndUpdateFingerprint` returns `"A"` and sets its
`usedAt` to 50, which is still below the other record's 100; a second
fetch serialized after the first therefore selects the very same record
again, so the claim fails as stated. -/
theorem C3_counterexample :
    ([⟨"A", 0⟩, ⟨"B", 100⟩] : List FpRecord).length = 2
    ∧ (fetchAndUpdateFingerprint 50 [⟨"A", 0⟩, ⟨"B", 100⟩]).1 = some "A"
    ∧ (fetchAndUpdateFingerprint 60
        (fetchAndUpdateFingerprint 50 [⟨"A", 0⟩, ⟨"B", 100⟩]).2).1 = some "A" := by
  exact ⟨rfl, by decide, by decide⟩

/-- C3 (amended): for a non-empty table whose records all have `usedAt`
strictly before the fetch time and carry pairwise distinct values,
`fetchAndUpdateFingerprint` returns the value of the record with minimal
`usedAt`, that record's `usedAt` strictly increases to the fetch time, and
a second serialized fetch selects the same record exactly when the table
has size 1. -/
theorem C3_fetch_fingerprint (pool : List FpRecord) (now1 now2 : Int)
    (hne : pool ≠ [])
    (hpast : ∀ r ∈ pool, r.usedAt < now1)
    (hnd : (pool.map FpRecord.value).Nodup) :
    ∃ r1, r1 ∈ pool
      ∧ (fetchAndUpdateFingerprint now1 pool).1 = some r1.value
      ∧ (∀ q ∈ pool, r1.usedAt ≤ q.usedAt)
      ∧ FpRecord.mk r1.value now1 ∈ (fetchAndUpdateFingerprint now1 pool).2
      ∧ r1.usedAt < now1
      ∧ ((fetchAndUpdateFingerprint now2 (fetchAndUpdateFingerprint now1 pool).2).1
          = some r1.value ↔ pool.length = 1) := by
  cases hsel : selectOldestRecord pool with
  | none => exact absurd ((selectOldestRecord_eq_none pool).mp hsel) hne
  | some r1 =>
      obtain ⟨hmem, hmin⟩ := selectOldestRecord_mem_min pool r1 hsel
      have hlt : r1.usedAt < now1 := hpast r1 hmem
      have hpool1 : (fetchAndUpdateFingerprint now1 pool).2
          = pool.map (fun q => if q.value = r1.value then ⟨q.value, now1⟩ else q) := by
        simp [fetchAndUpdateFingerprint, hsel]
      refine ⟨r1, hmem, fetchAndUpdateFingerprint_fst now1 pool r1 hsel, hmin, ?_, hlt, ?_, ?_⟩
      · rw [hpool1]
        exact List.mem_map.mpr ⟨r1, hmem, by simp⟩
      · -- second fetch returns the same value → the table has size 1
        intro hsecond
        by_contra hlen1
        have hlen2 : 2 ≤ pool.length := by
          cases pool with
          | nil => exact absurd rfl hne
          | cons x rest =>
              cases rest with
              | nil => exact absurd rfl hlen1
              | cons y rest2 => simp only [List.length_cons]; omega
        obtain ⟨q, hq, hqv⟩ := exists_other_value pool r1 hlen2 hnd
        cases hsel2 : selectOldestRecord (fetchAndUpdateFingerprint now1 pool).2 with
        | none =>
            have : (fetchAndUpdateFingerprint now1 pool).2 = [] :=
              (selectOldestRecord_eq_none _).mp hsel2
            rw [hpool1] at this
            exact hne (List.map_eq_nil_iff.mp this)
        | some r2 =>
            have hsecondval : r2.value = r1.value := by
              rw [fetchAndUpdateFingerprint_fst now2 _ r2 hsel2] at hsecond
              exact Option.some.inj hsecond
            obtain ⟨hmem2, hmin2⟩ := selectOldestRecord_mem_min _ r2 hsel2
            have hqmem1 : q ∈ (fetchAndUpdateFingerprint now1 pool).2 := by
              rw [hpool1]
              exact List.mem_map.mpr ⟨q, hq, by simp [hqv]⟩
            have hq2 : r2.usedAt ≤ q.usedAt := hmin2 q hqmem1
            have hqlt : q.usedAt < now1 := hpast q hq
            rw [hpool1] at hmem2
            obtain ⟨p, hp, hfp⟩ := List.mem_map.mp hmem2
            by_cases hpv : p.value = r1.value
            · rw [if_pos hpv] at hfp
              have : r2.usedAt = now1 := by rw [← hfp]
              omega
            · rw [if_neg hpv] at hfp
              exact hpv (by rw [← hfp] at hsecondval; exact hsecondval)
      · -- the table has size 1 → second fetch returns the same value
        intro hlen
        obtain ⟨x, rfl⟩ := List.length_eq_one.mp hlen
        have hx : x = r1 := by simpa [selectOldestRecord] using hsel
        subst hx
        simp [fetchAndUpdateFingerprint, selectOldestRecord]

/-- C3 witness: the amended theorem applies to the two-record table
`[("A", 0), ("B", 10)]` fetched at times 50 and 60. -/
theorem C3_fetch_fingerprint_witness :
    (([⟨"A", 0⟩, ⟨"B", 10⟩] : List FpRecord) ≠ []
      ∧ (∀ r ∈ ([⟨"A", 0⟩, ⟨"B", 10⟩] : List FpRecord), r.usedAt < 50)
      ∧ (([⟨"A", 0⟩, ⟨"B", 10⟩] : List FpRecord).map FpRecord.value).Nodup)
    ∧ ∃ r1, r1 ∈ ([⟨"A", 0⟩, ⟨"B", 10⟩] : List FpRecord)
      ∧ (fetchAndUpdateFingerprint 50 [⟨"A", 0⟩, ⟨"B", 10⟩]).1 = some r1.value
      ∧ (∀ q ∈ ([⟨"A", 0⟩, ⟨"B", 10⟩] : List FpRecord), r1.usedAt ≤ q.usedAt)
      ∧ FpRecord.mk r1.value 50 ∈ (fetchAndUpdateFingerprint 50 [⟨"A", 0⟩, ⟨"B", 10⟩]).2
      ∧ r1.usedAt < 50
      ∧ ((fetchAndUpdateFingerprint 60
            (fetchAndUpdateFingerprint 50 [⟨"A", 0⟩, ⟨"B", 10⟩]).2).1
          = some r1.value ↔ ([⟨"A", 0⟩, ⟨"B", 10⟩] : List FpRecord).length = 1) := by
  refine ⟨⟨by decide, by decide, by decide⟩, ?_⟩
  exact C3_fetch_fingerprint [⟨"A", 0⟩, ⟨"B", 10⟩] 50 60 (by decide) (by decide) (by decide)

/-- An identifier absent from the registry occurs in zero entries. -/
theorem countId_eq_zero_of_hasId_false (reg : Registry) (id : String)
    (h : hasId reg id = false) : countId reg id = 0 := by
  simp only [hasId, List.any_eq_false] at h
  simp only [countId, List.length_eq_zero, List.filter_eq_nil_iff]
  exact h

/-- Appending an entry for `id` raises its entry count by one. -/
theorem countId_append_self (reg : Registry) (id : String) (e : RegistryEntry) :
    countId (reg ++ [(id, e)]) id = countId reg id + 1 := by
  simp [countId, List.filter_append]

/-- After appending an entry for `id`, the registry reports `id` as
present. -/
theorem hasId_append_self (reg : Registry) (id : String) (e : RegistryEntry) :
    hasId (reg ++ [(id, e)]) id = true := by
  simp [hasId, List.any_append]

/-- C4: when `id` is already registered, `createSession` fails with the
already-exists error before any side effect (the registry is unchanged, so
an invariant single entry for `id` stays a single entry); when `id` is
free and initialization fails, the call fails and `id` is not registered
afterwards; when `id` is free and initialization succeeds, exactly one
entry for `id` is registered, and a duplicate `createSession` with the
same `id` fails with the already-exists error leaving that single entry. -/
theorem C4_create_session (reg : Registry) (id : String)
    (initResult : Except String RegistryEntry) :
    (hasId reg id = true →
        createSession reg id initResult = (Except.error (SMError.sessionAlreadyExists id), reg))
    ∧ (hasId reg id = false → ∀ msg, initResult = Except.error msg →
        createSession reg id initResult = (Except.error (SMError.createFailed id msg), reg)
        ∧ hasId (createSession reg id initResult).2 id = false)
    ∧ (hasId reg id = false → ∀ entry, initResult = Except.ok entry →
        countId (createSession reg id initResult).2 id = 1
        ∧ ∀ laterInit, createSession (createSession reg id initResult).2 id laterInit
            = (Except.error (SMError.sessionAlreadyExists id), (createSession reg id initResult).2)) := by
  refine ⟨?_, ?_, ?_⟩
  · intro h
    simp [createSession, h]
  · intro h msg hmsg
    subst hmsg
    constructor
    · simp [createSession, h]
    · simp [createSession, h]
  · intro h entry hentry
    subst hentry
    have h2 : (createSession reg id (Except.ok entry)).2 = reg ++ [(id, entry)] := by
      simp [createSession, h]
    constructor
    · rw [h2, countId_append_self, countId_eq_zero_of_hasId_false reg id h]
    · intro laterInit
      rw [h2]
      simp [createSession, hasId_append_self]

/-- C4 witness: on the registry holding only `s1`, a duplicate create
fails with the already-exists error; on the empty registry, a failing
initialization registers nothing and a successful one registers exactly
one entry. -/
theorem C4_create_session_witness :
    (hasId [("s1", RegistryEntry.mk 1 2)] "s1" = true
      ∧ createSession [("s1", RegistryEntry.mk 1 2)] "s1" (Except.ok (RegistryEntry.mk 3 4))
          = (Except.error (SMError.sessionAlreadyExists "s1"), [("s1", RegistryEntry.mk 1 2)]))
    ∧ (hasId [] "s1" = false
      ∧ hasId (createSession [] "s1" (Except.error "launch failed")).2 "s1" = false
      ∧ countId (createSession [] "s1" (Except.ok (RegistryEntry.mk 1 2))).2 "s1" = 1) := by
  refine ⟨⟨by decide, ?_⟩, by decide, ?_, ?_⟩
  · exact (C4_create_session [("s1", RegistryEntry.mk 1 2)] "s1"
      (Except.ok (RegistryEntry.mk 3 4))).1 (by decide)
  · exact ((C4_create_session [] "s1" (Except.error "launch failed")).2.1
      (by decide) "launch failed" rfl).2
  · exact ((C4_create_session [] "s1" (Except.ok (RegistryEntry.mk 1 2))).2.2
      (by decide) (RegistryEntry.mk 1 2) rfl).1

/-- Filtering out every entry for `id` leaves nothing for `find?` to
locate under `id`. -/
theorem find?_filter_not_id (reg : Registry) (id : String) :
    (reg.filter fun p => !(p.1 == id)).find? (fun p => p.1 == id) = none := by
  rw [List.find?_eq_none]
  intro x hx
  have hmem := List.of_mem_filter hx
  simp at hmem
  simp [hmem]

/-- C5 counterexample: on the registry holding `s1`, when the underlying
quit fails, `closeSession` re-throws and the entry is NOT removed —
`getSession` still returns it instead of raising the not-found error — so
the claim fails as stated. -/
theorem C5_counterexample :
    (closeSession [("s1", RegistryEntry.mk 1 2)] "s1" (Except.error "quit failed")).2
      = [("s1", RegistryEntry.mk 1 2)]
    ∧ getSession (closeSession [("s1", RegistryEntry.mk 1 2)] "s1"
        (Except.error "quit failed")).2 "s1" = Except.ok (RegistryEntry.mk 1 2)
    ∧ getSession (closeSession [("s1", RegistryEntry.mk 1 2)] "s1"
        (Except.error "quit failed")).2 "s1"
      ≠ Except.error (SMError.sessionNotFound "s1") := by
  exact ⟨rfl, rfl, fun h => Except.noConfusion h⟩

/-- C5 (amended): `closeSession` removes the registry entry only after the
underlying quit completes successfully, after which `getSession` raises
the not-found error; when quit fails, the close call fails and the entry
remains registered, with `getSession` unchanged; for an unregistered `id`
the call raises the not-found error without side effects. -/
theorem C5_close_session (reg : Registry) (id : String) (quitResult : Except String Unit) :
    (reg.find? (fun p => p.1 == id) = none →
        closeSession reg id quitResult = (Except.error (SMError.sessionNotFound id), reg)
        ∧ getSession reg id = Except.error (SMError.sessionNotFound id))
    ∧ (∀ pe, reg.find? (fun p => p.1 == id) = some pe → quitResult = Except.ok () →
        (closeSession reg id quitResult).1 = Except.ok ()
        ∧ getSession (closeSession reg id quitResult).2 id
            = Except.error (SMError.sessionNotFound id))
    ∧ (∀ pe msg, reg.find? (fun p => p.1 == id) = some pe → quitResult = Except.error msg →
        closeSession reg id quitResult = (Except.error (SMError.closeFailed id msg), reg)
        ∧ getSession (closeSession reg id quitResult).2 id = getSession reg id) := by
  refine ⟨?_, ?_, ?_⟩
  · intro h
    exact ⟨by simp [closeSession, h], by simp [getSession, h]⟩
  · intro pe hfind hquit
    subst hquit
    have hclose : (closeSession reg id (Except.ok ())).2
        = reg.filter fun p => !(p.1 == id) := by
      simp [closeSession, hfind]
    refine ⟨by simp [closeSession, hfind], ?_⟩
    rw [hclose]
    simp only [getSession]
    rw [find?_filter_not_id]
  · intro pe msg hfind hquit
    subst hquit
    have hclose : closeSession reg id (Except.error msg)
        = (Except.error (SMError.closeFailed id msg), reg) := by
      simp [closeSession, hfind]
    exact ⟨hclose, by rw [hclose]⟩

/-- C5 witness: the amended theorem applies to the one-entry registry for
both quit outcomes and to the empty registry for the unknown-id case. -/
theorem C5_close_session_witness :
    (([] : Registry).find? (fun p => p.1 == "s1") = none
      ∧ closeSession [] "s1" (Except.ok ())
          = (Except.error (SMError.sessionNotFound "s1"), []))
    ∧ ([("s1", RegistryEntry.mk 1 2)] : Registry).find? (fun p => p.1 == "s1")
        = some ("s1", RegistryEntry.mk 1 2)
    ∧ getSession (closeSession [("s1", RegistryEntry.mk 1 2)] "s1" (Except.ok ())).2 "s1"
        = Except.error (SMError.sessionNotFound "s1")
    ∧ closeSession [("s1", RegistryEntry.mk 1 2)] "s1" (Except.error "quit failed")
        = (Except.error (SMError.closeFailed "s1" "quit failed"), [("s1", RegistryEntry.mk 1 2)]) := by
  refine ⟨⟨rfl, ?_⟩, rfl, ?_, ?_⟩
  · exact ((C5_close_session [] "s1" (Except.ok ())).1 rfl).1
  · exact ((C5_close_session [("s1", RegistryEntry.mk 1 2)] "s1" (Except.ok ())).2.1
      ("s1", RegistryEntry.mk 1 2) rfl rfl).2
  · exact ((C5_close_session [("s1", RegistryEntry.mk 1 2)] "s1"
      (Except.error "quit failed")).2.2 ("s1", RegistryEntry.mk 1 2) "quit failed" rfl rfl).1

/-- With the rotate-from-pool sentinel and an empty pool, the proxy
branch throws the `TypeError` of calling `.match` on `null`. -/
theorem resolveProxySteps_database_empty :
    resolveProxySteps (some "database") []
      = Except.error (SessError.typeError "null has no method match") := rfl

/-- C6 counterexample: with `proxy: 'database'` and an empty proxy pool,
`initialize` fails with the `TypeError` of reading `.match` on the `null`
returned by the rotation — not with a `ResourceUnavailable` error as the
claim states — though it does fail as a whole and `driver` stays null. -/
theorem C6_counterexample :
    (initSession ⟨none⟩ "pp" ⟨false, some "database", none⟩ [] [] 0 (Except.ok "fp")
        (fun _ => Except.ok 1)).1
      = Except.error (SessError.typeError "null has no method match")
    ∧ (initSession ⟨none⟩ "pp" ⟨false, some "database", none⟩ [] [] 0 (Except.ok "fp")
        (fun _ => Except.ok 1)).1
      ≠ Except.error SessError.resourceUnavailable
    ∧ (initSession ⟨none⟩ "pp" ⟨false, some "database", none⟩ [] [] 0 (Except.ok "fp")
        (fun _ => Except.ok 1)).2.driver = none := by
  refine ⟨rfl, ?_, rfl⟩
  intro h
  exact Except.noConfusion h fun hh => SessError.noConfusion hh

/-- C6 (amended): with the rotate-from-pool sentinel and an empty proxy
pool, initialization fails as a whole — with the `TypeError` of accessing
`.match` on `null`, not with a `ResourceUnavailable` error — and after any
failure of option composition or of the launch call the session's
`driver` field is never set (remains null). -/
theorem C6_session_init (st : SessionState) (profilePath : String)
    (cfg : SessionConfig) (pool : List String)
    (fpPool : List FpRecord) (now : Int) (pluginFetch : Except String String)
    (launch : List OptStep → Except String Nat)
    (hd : st.driver = none) :
    (cfg.proxy = some "database" → pool = [] →
        (initSession st profilePath cfg pool fpPool now pluginFetch launch).1
          = Except.error (SessError.typeError "null has no method match"))
    ∧ (∀ e, (initSession st profilePath cfg pool fpPool now pluginFetch launch).1
          = Except.error e →
        (initSession st profilePath cfg pool fpPool now pluginFetch launch).2.driver = none) := by
  constructor
  · intro hp hpool
    subst hpool
    simp only [initSession, configureOptions, hp, resolveProxySteps_database_empty]
  · intro e he
    cases hco : configureOptions profilePath cfg pool fpPool now pluginFetch with
    | error e2 =>
        simp only [initSession, hco]
        exact hd
    | ok steps =>
        cases hl : launch steps with
        | error msg =>
            simp only [initSession, hco, hl]
            exact hd
        | ok d =>
            exfalso
            simp only [initSession, hco, hl] at he
            exact Except.noConfusion he

/-- C6 witness: the amended theorem applies to a null-driver session with
the empty pool (proxy branch failure) and to one whose launch call is
rejected. -/
theorem C6_session_init_witness :
    (SessionState.mk none).driver = none
    ∧ (initSession ⟨none⟩ "pp" ⟨false, some "database", none⟩ [] [] 0 (Except.ok "fp")
        (fun _ => Except.ok 1)).1 = Except.error (SessError.typeError "null has no method match")
    ∧ (initSession ⟨none⟩ "pp" ⟨true, some "u:p@h:1", some "fp"⟩ ["x"] [] 0 (Except.ok "f")
        (fun _ => Except.error "launch boom")).2.driver = none := by
  refine ⟨rfl, ?_, ?_⟩
  · exact (C6_session_init ⟨none⟩ "pp" ⟨false, some "database", none⟩ [] [] 0 (Except.ok "fp")
      (fun _ => Except.ok 1) rfl).1 rfl rfl
  · exact (C6_session_init ⟨none⟩ "pp" ⟨true, some "u:p@h:1", some "fp"⟩ ["x"] [] 0
      (Except.ok "f") (fun _ => Except.error "launch boom") rfl).2
      (SessError.launchFailed "launch boom") rfl

/-- A successful proxy branch never emits the logging-suppression step. -/
theorem resolveProxySteps_no_logging (proxy : Option String) (pool : List String)
    (ps : List OptStep) (h : resolveProxySteps proxy pool = Except.ok ps) :
    OptStep.setLoggingPrefs ∉ ps := by
  unfold resolveProxySteps at h
  split at h
  · split at h
    · exact Except.noConfusion h
    · split at h
      · cases Except.ok.inj h
        simp
      · cases Except.ok.inj h
        simp
  · cases Except.ok.inj h
    simp

/-- A successful fingerprint branch never emits the logging-suppression
step. -/
theorem resolveFingerprintSteps_no_logging (fp : Option String)
    (fpPool : List FpRecord) (now : Int) (pluginFetch : Except String String)
    (fs : List OptStep)
    (h : resolveFingerprintSteps fp fpPool now pluginFetch = Except.ok fs) :
    OptStep.setLoggingPrefs ∉ fs := by
  unfold resolveFingerprintSteps at h
  split at h
  · split at h
    · split at h
      · exact Except.noConfusion h
      · cases Except.ok.inj h
        simp
    · split at h
      · split at h
        · cases Except.ok.inj h
          simp
        · cases Except.ok.inj h
          simp
      · cases Except.ok.inj h
        simp
  · cases Except.ok.inj h
    simp

/-- C7 counterexample: at the configuration (headless, bare proxy
`1.2.3.4:8080`, explicit fingerprint), neither source variant composes the
options in the claimed order — part_004 puts the user-data path first and
has no logging-suppression step at all, and the part_003 variant sets the
headless flag before logging suppression and the user-data path before the
fingerprint. -/
theorem C7_counterexample :
    configureOptions "pp" ⟨true, some "1.2.3.4:8080", some "fp"⟩ ["x"] [] 0 (Except.ok "f")
      = Except.ok [OptStep.addArg "--user-data-dir=pp", OptStep.addArg "--headless",
          OptStep.addArg "--proxy-server=1.2.3.4:8080", OptStep.useFingerprint "fp"]
    ∧ configureOptionsVariant "pp" ⟨true, some "1.2.3.4:8080", some "fp"⟩ [] 0 (Except.ok "f")
      = Except.ok [OptStep.addArg "--headless", OptStep.setLoggingPrefs,
          OptStep.addArg "--proxy-server=1.2.3.4:8080", OptStep.addArg "--user-data-dir=pp",
          OptStep.useFingerprint "fp"]
    ∧ specOrderConfigureOptions "pp" ⟨true, some "1.2.3.4:8080", some "fp"⟩ ["x"] [] 0
        (Except.ok "f")
      = Except.ok [OptStep.setLoggingPrefs, OptStep.addArg "--headless",
          OptStep.addArg "--proxy-server=1.2.3.4:8080", OptStep.useFingerprint "fp",
          OptStep.addArg "--user-data-dir=pp"]
    ∧ configureOptions "pp" ⟨true, some "1.2.3.4:8080", some "fp"⟩ ["x"] [] 0 (Except.ok "f")
      ≠ specOrderConfigureOptions "pp" ⟨true, some "1.2.3.4:8080", some "fp"⟩ ["x"] [] 0
          (Except.ok "f")
    ∧ configureOptionsVariant "pp" ⟨true, some "1.2.3.4:8080", some "fp"⟩ [] 0 (Except.ok "f")
      ≠ specOrderConfigureOptions "pp" ⟨true, some "1.2.3.4:8080", some "fp"⟩ ["x"] [] 0
          (Except.ok "f") := by
  refine ⟨rfl, rfl, rfl, fun h => ?_, fun h => ?_⟩
  · exact absurd (Except.ok.inj h) (by decide)
  · exact absurd (Except.ok.inj h) (by decide)

/-- C7 (amended): every successful option composition of the part_004
variant is, in order, the user-data path first, then the headless flag if
requested, then the proxy steps, then the fingerprint steps — with no
logging-suppression step anywhere — and every successful composition of
the part_003 variant is the headless flag if requested, then logging
suppression, then the proxy steps, then the user-data path, then the
fingerprint steps, all before the single launch call. -/
theorem C7_option_order (profilePath : String) (cfg : SessionConfig)
    (pool : List String) (fpPool : List FpRecord) (now : Int)
    (pluginFetch : Except String String) :
    (∀ steps, configureOptions profilePath cfg pool fpPool now pluginFetch = Except.ok steps →
        (∃ ps fs, resolveProxySteps cfg.proxy pool = Except.ok ps
          ∧ resolveFingerprintSteps cfg.fingerprint fpPool now pluginFetch = Except.ok fs
          ∧ steps = OptStep.addArg ("--user-data-dir=" ++ profilePath)
              :: ((if cfg.headless then [OptStep.addArg "--headless"] else []) ++ ps ++ fs))
        ∧ OptStep.setLoggingPrefs ∉ steps)
    ∧ (∀ steps, configureOptionsVariant profilePath cfg fpPool now pluginFetch
          = Except.ok steps →
        ∃ ps fs, resolveProxyStepsVariant cfg.proxy = Except.ok ps
          ∧ resolveFingerprintSteps cfg.fingerprint fpPool now pluginFetch = Except.ok fs
          ∧ steps = (if cfg.headless then [OptStep.addArg "--headless"] else [])
              ++ [OptStep.setLoggingPrefs] ++ ps
              ++ [OptStep.addArg ("--user-data-dir=" ++ profilePath)] ++ fs) := by
  constructor
  · intro steps h
    simp only [configureOptions] at h
    cases hps : resolveProxySteps cfg.proxy pool with
    | error e =>
        rw [hps] at h
        exact Except.noConfusion h
    | ok ps =>
        rw [hps] at h
        cases hfs : resolveFingerprintSteps cfg.fingerprint fpPool now pluginFetch with
        | error e =>
            rw [hfs] at h
            exact Except.noConfusion h
        | ok fs =>
            rw [hfs] at h
            cases (Except.ok.inj h).symm
            refine ⟨⟨ps, fs, rfl, rfl, rfl⟩, ?_⟩
            have hh : OptStep.setLoggingPrefs
                ∉ (if cfg.headless then [OptStep.addArg "--headless"] else []) := by
              split <;> simp
            have hpl := resolveProxySteps_no_logging cfg.proxy pool ps hps
            have hfl := resolveFingerprintSteps_no_logging cfg.fingerprint fpPool now
              pluginFetch fs hfs
            intro hmem
            rcases List.mem_cons.mp hmem with h1 | h2
            · exact OptStep.noConfusion h1
            · rcases List.mem_append.mp h2 with h3 | h4
              · rcases List.mem_append.mp h3 with h5 | h6
                · exact hh h5
                · exact hpl h6
              · exact hfl h4
  · intro steps h
    simp only [configureOptionsVariant] at h
    cases hps : resolveProxyStepsVariant cfg.proxy with
    | error e =>
        rw [hps] at h
        exact Except.noConfusion h
    | ok ps =>
        rw [hps] at h
        cases hfs : resolveFingerprintSteps cfg.fingerprint fpPool now pluginFetch with
        | error e =>
            rw [hfs] at h
            exact Except.noConfusion h
        | ok fs =>
            rw [hfs] at h
            cases (Except.ok.inj h).symm
            exact ⟨ps, fs, rfl, rfl, rfl⟩

/-- C7 witness: the amended theorem applies to the full-featured
configuration (headless, bare proxy, explicit fingerprint). -/
theorem C7_option_order_witness :
    configureOptions "pp" ⟨true, some "1.2.3.4:8080", some "fp"⟩ ["x"] [] 0 (Except.ok "f")
      = Except.ok [OptStep.addArg "--user-data-dir=pp", OptStep.addArg "--headless",
          OptStep.addArg "--proxy-server=1.2.3.4:8080", OptStep.useFingerprint "fp"]
    ∧ OptStep.setLoggingPrefs ∉ [OptStep.addArg "--user-data-dir=pp",
        OptStep.addArg "--headless", OptStep.addArg "--proxy-server=1.2.3.4:8080",
        OptStep.useFingerprint "fp"]
    ∧ configureOptionsVariant "pp" ⟨true, some "1.2.3.4:8080", some "fp"⟩ [] 0 (Except.ok "f")
      = Except.ok [OptStep.addArg "--headless", OptStep.setLoggingPrefs,
          OptStep.addArg "--proxy-server=1.2.3.4:8080", OptStep.addArg "--user-data-dir=pp",
          OptStep.useFingerprint "fp"]
    ∧ (∃ ps fs, resolveProxyStepsVariant (some "1.2.3.4:8080") = Except.ok ps
        ∧ resolveFingerprintSteps (some "fp") [] 0 (Except.ok "f") = Except.ok fs
        ∧ [OptStep.addArg "--headless", OptStep.setLoggingPrefs,
            OptStep.addArg "--proxy-server=1.2.3.4:8080", OptStep.addArg "--user-data-dir=pp",
            OptStep.useFingerprint "fp"]
          = (if (true : Bool) then [OptStep.addArg "--headless"] else [])
              ++ [OptStep.setLoggingPrefs] ++ ps
              ++ [OptStep.addArg ("--user-data-dir=" ++ "pp")] ++ fs) := by
  refine ⟨rfl, ?_, rfl, ?_⟩
  · exact ((C7_option_order "pp" ⟨true, some "1.2.3.4:8080", some "fp"⟩ ["x"] [] 0
      (Except.ok "f")).1 _ rfl).2
  · exact (C7_option_order "pp" ⟨true, some "1.2.3.4:8080", some "fp"⟩ ["x"] [] 0
      (Except.ok "f")).2 _ rfl

/-- C8: when the page-load race is lost to the timer (rejection with the
source's timeout message), `navigate` does not raise — it sends the
stop-loading script to the driver and returns normally after the settle
delay. -/
theorem C8_navigate_timeout (url : String) :
    navigate url (Except.error "Page load timed out.")
      = ([NavEvent.driverGet url, NavEvent.windowStop, NavEvent.settleDelay],
         Except.ok ()) := rfl

/-- C10: every rejection of the page-load race — not only the timer's —
is caught: `window.stop` is executed and the call returns normally, so
`navigate` never propagates a page-load error to its caller. -/
theorem C10_navigate_no_propagation (url : String) (raceOutcome : Except String Unit) :
    (navigate url raceOutcome).2 = Except.ok ()
    ∧ (∀ msg, raceOutcome = Except.error msg →
        (navigate url raceOutcome).1
          = [NavEvent.driverGet url, NavEvent.windowStop, NavEvent.settleDelay]) := by
  cases raceOutcome with
  | ok u => exact ⟨rfl, fun msg h => Except.noConfusion h⟩
  | error e => exact ⟨rfl, fun msg h => rfl⟩

/-- C10 witness: a driver rejection distinct from the timeout message is
also caught, aborts the load and returns normally. -/
theorem C10_navigate_no_propagation_witness :
    ((Except.error "net failure" : Except String Unit) = Except.error "net failure")
    ∧ (navigate "example.test" (Except.error "net failure")).2 = Except.ok ()
    ∧ (navigate "example.test" (Except.error "net failure")).1
        = [NavEvent.driverGet "example.test", NavEvent.windowStop, NavEvent.settleDelay] := by
  refine ⟨rfl, (C10_navigate_no_propagation "example.test" (Except.error "net failure")).1, ?_⟩
  exact (C10_navigate_no_propagation "example.test" (Except.error "net failure")).2
    "net failure" rfl

/-- The attempt loop never locates an element. -/
theorem clickAttempts_no_locate (succeeds : Nat → Bool) (k fuel : Nat) (s : String) :
    ClickEvent.locate s ∉ (clickAttempts succeeds k fuel).1 := by
  induction fuel generalizing k with
  | zero => simp [clickAttempts]
  | succ n ih =>
      simp only [clickAttempts]
      split
      · simp
      · intro hmem
        simp only [List.mem_cons] at hmem
        rcases hmem with h | h | h | h
        · exact ClickEvent.noConfusion h
        · exact ClickEvent.noConfusion h
        · exact ClickEvent.noConfusion h
        · exact ih (k + 1) h

/-- The attempt loop performs at most as many click attempts as it has
budget. -/
theorem clickAttempts_attempt_count (succeeds : Nat → Bool) (k fuel : Nat) :
    ((clickAttempts succeeds k fuel).1.filter ClickEvent.isAttempt).length ≤ fuel := by
  induction fuel generalizing k with
  | zero => simp [clickAttempts]
  | succ n ih =>
      simp only [clickAttempts]
      split
      · simp [ClickEvent.isAttempt]
      · simp [ClickEvent.isAttempt, List.filter_cons]
        have := ih (k + 1)
        omega

/-- If some attempt within the budget succeeds, the loop reports
success. -/
theorem clickAttempts_success (succeeds : Nat → Bool) (k fuel : Nat)
    (h : ∃ j, j < fuel ∧ succeeds (k + j) = true) :
    (clickAttempts succeeds k fuel).2 = true := by
  induction fuel generalizing k with
  | zero =>
      obtain ⟨j, hj, _⟩ := h
      omega
  | succ n ih =>
      simp only [clickAttempts]
      split
      · rfl
      · rename_i hk
        apply ih
        obtain ⟨j, hj, hs⟩ := h
        cases j with
        | zero =>
            exfalso
            rw [Nat.add_zero] at hs
            exact hk hs
        | succ j2 =>
            refine ⟨j2, by omega, ?_⟩
            rw [show k + 1 + j2 = k + (j2 + 1) from by omega]
            exact hs

/-- If every attempt within the budget fails, the loop reports failure. -/
theorem clickAttempts_failure (succeeds : Nat → Bool) (k fuel : Nat)
    (h : ∀ j, j < fuel → succeeds (k + j) = false) :
    (clickAttempts succeeds k fuel).2 = false := by
  induction fuel generalizing k with
  | zero => simp [clickAttempts]
  | succ n ih =>
      simp only [clickAttempts]
      have hk : succeeds k = false := by simpa using h 0 (Nat.succ_pos n)
      rw [if_neg (by simp [hk])]
      apply ih
      intro j hj
      have hx := h (j + 1) (by omega)
      rwa [show k + (j + 1) = k + 1 + j from by omega] at hx

/-- C9: `click` locates the element exactly once, performs at most 5
native click attempts without re-locating between them, returns normally
when any attempt within the budget succeeds (in particular when only the
fifth does), and raises the interaction failure when all 5 attempts
fail. -/
theorem C9_click_retry (selector : String) (succeeds : Nat → Bool) :
    ((click selector succeeds).1.filter ClickEvent.isLocate).length = 1
    ∧ ((click selector succeeds).1.filter ClickEvent.isAttempt).length ≤ 5
    ∧ ((∃ k, k < 5 ∧ succeeds k = true) → (click selector succeeds).2 = Except.ok ())
    ∧ ((∀ k, k < 5 → succeeds k = false) →
        (click selector succeeds).2
          = Except.error ("Failed to click element " ++ selector ++ ".")) := by
  have htail : (clickAttempts succeeds 0 5).1.filter ClickEvent.isLocate = [] := by
    rw [List.filter_eq_nil_iff]
    intro x hx
    cases x with
    | locate s => exact absurd hx (clickAttempts_no_locate succeeds 0 5 s)
    | shortDelay => simp [ClickEvent.isLocate]
    | attemptClick a => simp [ClickEvent.isLocate]
    | retryDelay => simp [ClickEvent.isLocate]
  refine ⟨?_, ?_, ?_, ?_⟩
  · simp [click, List.filter_cons, ClickEvent.isLocate, htail]
  · simp only [click, List.filter_cons, ClickEvent.isLocate, ClickEvent.isAttempt]
    exact clickAttempts_attempt_count succeeds 0 5
  · intro hex
    obtain ⟨k, hk, hs⟩ := hex
    have hsucc : (clickAttempts succeeds 0 5).2 = true :=
      clickAttempts_success succeeds 0 5 ⟨k, hk, by simpa using hs⟩
    simp [click, hsucc]
  · intro hall
    have hfail : (clickAttempts succeeds 0 5).2 = false :=
      clickAttempts_failure succeeds 0 5 (fun j hj => by simpa using hall j hj)
    simp [click, hfail]

/-- C9 witness: a target failing its first 4 attempts and succeeding on
the 5th completes successfully, and one failing all 5 raises the
interaction failure. -/
theorem C9_click_retry_witness :
    (∃ k, k < 5 ∧ (fun n => n == 4) k = true)
    ∧ (click "btn" (fun n => n == 4)).2 = Except.ok ()
    ∧ (∀ k, k < 5 → (fun _ => false : Nat → Bool) k = false)
    ∧ (click "btn" (fun _ => false)).2
        = Except.error ("Failed to click element " ++ "btn" ++ ".") := by
  refine ⟨⟨4, by omega, rfl⟩, ?_, fun k hk => rfl, ?_⟩
  · exact (C9_click_retry "btn" (fun n => n == 4)).2.2.1 ⟨4, by omega, rfl⟩
  · exact (C9_click_retry "btn" (fun _ => false)).2.2.2 (fun k hk => rfl)
